import Mathlib

/-!
Shallow embedding of the anomaly-detection core of the repository
(application service `anomaly.ts`, entity `Anomaly.ts`, job scheduler).

Modelling choices:
* Energy values, capacities and thresholds are rationals (the source uses
  JS numbers; every claim is about exact comparisons on small decimal
  values which the rational semantics reproduces).  Division by zero
  yields 0 in `Rat`; for the physically meaningful inputs of the claims
  (non-negative energies) the guarded divisions of the source never hit
  a zero denominator in a way that changes any branch.
* Calendar days are integers (day numbers).  The source aggregates
  readings per calendar day, so its millisecond arithmetic
  (`getTime` differences divided by 86_400_000) reduces to integer day
  differences.
* Presentation-only fields (`description`, `recommendedAction`,
  `detectionDetails.context`) carry no logic and are referenced by no
  claim; they are not modelled.  All numeric evidence fields of
  `detectionDetails` are modelled.
* Database access (Mongoose queries) is modelled by passing the fetched
  data explicitly: the daily aggregates a device's readings produce, the
  stored anomaly list, and a possibly failing fetch (`Except`).
-/

inductive AnomalyType where
  | ZERO_PRODUCTION
  | SIGNIFICANT_DROP
  | GRADUAL_DEGRADATION
  | SENSOR_SPIKE
  | INTERMITTENT_FAILURE
  | BELOW_THRESHOLD
deriving DecidableEq, Repr

inductive Severity where
  | CRITICAL
  | WARNING
  | INFO
deriving DecidableEq, Repr

inductive ResolutionStatus where
  | OPEN
  | ACKNOWLEDGED
  | RESOLVED
  | FALSE_POSITIVE
deriving DecidableEq, Repr

/-- One daily aggregate: `{ date, totalEnergy }` as produced by `getDailyRecords`. -/
structure DailyRecord where
  date : Int
  totalEnergy : Rat
deriving DecidableEq, Repr

/-- A detected anomaly finding (`DetectedAnomaly` in the source), with the
affected period flattened to `startDate`/`endDate` and the numeric
`detectionDetails` fields inlined. -/
structure Finding where
  solarUnitId : Nat
  anomalyType : AnomalyType
  severity : Severity
  startDate : Int
  endDate : Int
  method : String
  expectedValue : Option Rat
  actualValue : Option Rat
  deviationPercent : Option Rat
  threshold : Option Rat
  estimatedEnergyLoss : Option Rat
deriving DecidableEq, Repr

/-- Sum of the daily totals of a window (`records.reduce((sum, r) => sum + r.totalEnergy, 0)`). -/
def windowSum (records : List DailyRecord) : Rat :=
  records.foldl (fun s r => s + r.totalEnergy) 0

/-- Arithmetic mean of the window (`totalEnergy / records.length`). -/
def windowAverage (records : List DailyRecord) : Rat :=
  windowSum records / (records.length : Rat)

/-- First element of the window, `records[0]` (only used on non-empty windows). -/
def firstRecord (records : List DailyRecord) : DailyRecord :=
  records.headD ⟨0, 0⟩

/-- Last element of the window, `records[records.length - 1]` (only used on
non-empty windows). -/
def lastRecord (records : List DailyRecord) : DailyRecord :=
  records.getLastD ⟨0, 0⟩

/-- The finding `detectZeroProduction` pushes for a qualifying day. -/
def zeroProductionFinding (solarUnitId : Nat) (capacity : Rat) (r : DailyRecord) : Finding :=
  { solarUnitId := solarUnitId
    anomalyType := .ZERO_PRODUCTION
    severity := .CRITICAL
    startDate := r.date
    endDate := r.date
    method := "absolute_threshold"
    expectedValue := some (capacity * (1/2))
    actualValue := some r.totalEnergy
    deviationPercent := some 100
    threshold := some (capacity * (1/100))
    estimatedEnergyLoss := some (capacity * (1/2) - r.totalEnergy) }

/-- `detectZeroProduction`: flags every day whose total is at most 1% of capacity. -/
def detectZeroProduction (records : List DailyRecord) (solarUnitId : Nat)
    (capacity : Rat) : List Finding :=
  records.filterMap fun r =>
    if r.totalEnergy ≤ capacity * (1/100) then
      some (zeroProductionFinding solarUnitId capacity r)
    else none

/-- The finding `detectSignificantDrop` pushes for a qualifying day. -/
def significantDropFinding (solarUnitId : Nat) (averageEnergy dropThresholdPercent : Rat)
    (r : DailyRecord) : Finding :=
  { solarUnitId := solarUnitId
    anomalyType := .SIGNIFICANT_DROP
    severity := .WARNING
    startDate := r.date
    endDate := r.date
    method := "window_average_comparison"
    expectedValue := some averageEnergy
    actualValue := some r.totalEnergy
    deviationPercent := some (((averageEnergy - r.totalEnergy) / averageEnergy) * 100)
    threshold := some dropThresholdPercent
    estimatedEnergyLoss := some (averageEnergy - r.totalEnergy) }

/-- `detectSignificantDrop`: needs ≥ 3 days; skips zero days; flags a day when
`((avg - total) / avg) * 100 > dropThresholdPercent` (default 50 at the call site). -/
def detectSignificantDrop (records : List DailyRecord) (solarUnitId : Nat)
    (dropThresholdPercent : Rat) : List Finding :=
  if records.length < 3 then [] else
  let averageEnergy := windowAverage records
  records.filterMap fun r =>
    if r.totalEnergy = 0 then none
    else if ((averageEnergy - r.totalEnergy) / averageEnergy) * 100 > dropThresholdPercent then
      some (significantDropFinding solarUnitId averageEnergy dropThresholdPercent r)
    else none

/-- `sumX` of the regression loop: `0 + 1 + ... + (n-1)` summed over the
window's indices. -/
def indexSum (records : List DailyRecord) : Rat :=
  records.enum.foldl (fun s p => s + (p.1 : Rat)) 0

/-- `sumX2` of the regression loop: `0² + 1² + ... + (n-1)²` summed over the
window's indices. -/
def indexSquareSum (records : List DailyRecord) : Rat :=
  records.enum.foldl (fun s p => s + (p.1 : Rat) * (p.1 : Rat)) 0

/-- `sumXY` of the regression loop: `Σ i * records[i].totalEnergy`. -/
def indexWeightedSum (records : List DailyRecord) : Rat :=
  records.enum.foldl (fun s p => s + (p.1 : Rat) * p.2.totalEnergy) 0

/-- Closed-form least-squares slope
`(n*sumXY - sumX*sumY) / (n*sumX2 - sumX*sumX)`. -/
def regressionSlope (records : List DailyRecord) : Rat :=
  ((records.length : Rat) * indexWeightedSum records
      - indexSum records * windowSum records) /
    ((records.length : Rat) * indexSquareSum records
      - indexSum records * indexSum records)

/-- `declinePercent = |slope * (n - 1)| / averageEnergy * 100`. -/
def declinePercentOf (records : List DailyRecord) : Rat :=
  |regressionSlope records * ((records.length : Rat) - 1)| / windowAverage records * 100

/-- The single finding `detectGradualDegradation` pushes when it fires. -/
def gradualDegradationFinding (solarUnitId : Nat) (records : List DailyRecord)
    (degradationThresholdPercent : Rat) : Finding :=
  { solarUnitId := solarUnitId
    anomalyType := .GRADUAL_DEGRADATION
    severity := .WARNING
    startDate := (firstRecord records).date
    endDate := (lastRecord records).date
    method := "linear_regression"
    expectedValue := some (firstRecord records).totalEnergy
    actualValue := some (lastRecord records).totalEnergy
    deviationPercent := some (declinePercentOf records)
    threshold := some degradationThresholdPercent
    estimatedEnergyLoss :=
      some (|regressionSlope records * ((records.length : Rat) - 1)|
        * (records.length : Rat) / 2) }

/-- `detectGradualDegradation`: needs ≥ 7 days; fires when the least-squares
slope is negative and the implied decline percentage strictly exceeds the
threshold (default 15 at the call site). -/
def detectGradualDegradation (records : List DailyRecord) (solarUnitId : Nat)
    (degradationThresholdPercent : Rat) : List Finding :=
  if records.length < 7 then [] else
  if regressionSlope records < 0 ∧
      declinePercentOf records > degradationThresholdPercent then
    [gradualDegradationFinding solarUnitId records degradationThresholdPercent]
  else []

/-- The finding `detectSensorSpike` pushes for a qualifying day. -/
def sensorSpikeFinding (solarUnitId : Nat) (capacity spikeThresholdMultiplier : Rat)
    (r : DailyRecord) : Finding :=
  { solarUnitId := solarUnitId
    anomalyType := .SENSOR_SPIKE
    severity := .INFO
    startDate := r.date
    endDate := r.date
    method := "capacity_threshold"
    expectedValue := some (capacity * 8)
    actualValue := some r.totalEnergy
    deviationPercent := some (((r.totalEnergy - capacity * 8) / (capacity * 8)) * 100)
    threshold := some (capacity * 8 * spikeThresholdMultiplier)
    estimatedEnergyLoss := none }

/-- `detectSensorSpike`: flags a day whose total strictly exceeds
`capacity * 8 * spikeThresholdMultiplier` (multiplier 1.5 at the call site). -/
def detectSensorSpike (records : List DailyRecord) (solarUnitId : Nat)
    (capacity spikeThresholdMultiplier : Rat) : List Finding :=
  records.filterMap fun r =>
    if r.totalEnergy > capacity * 8 * spikeThresholdMultiplier then
      some (sensorSpikeFinding solarUnitId capacity spikeThresholdMultiplier r)
    else none

/-- The source's `hasIntermittentPattern` loop: some pair of consecutive
failure days is more than one calendar day apart. -/
def hasNonconsecutiveFailures : List Int → Bool
  | d1 :: d2 :: rest => decide (d2 - d1 > 1) || hasNonconsecutiveFailures (d2 :: rest)
  | _ => false

/-- The single finding `detectIntermittentFailure` pushes when it fires. -/
def intermittentFailureFinding (solarUnitId : Nat) (records : List DailyRecord)
    (capacity : Rat) (failureCount : Nat) : Finding :=
  { solarUnitId := solarUnitId
    anomalyType := .INTERMITTENT_FAILURE
    severity := .WARNING
    startDate := (firstRecord records).date
    endDate := (lastRecord records).date
    method := "pattern_analysis"
    expectedValue := none
    actualValue := none
    deviationPercent := none
    threshold := some (capacity * (5/100))
    estimatedEnergyLoss := some ((failureCount : Rat) * (capacity * (1/2))) }

/-- The dates the intermittent-failure loop collects as `failureDays`
(total at most 5% of capacity). -/
def failureDaysOf (records : List DailyRecord) (capacity : Rat) : List Int :=
  (records.filter fun r => decide (r.totalEnergy ≤ capacity * (5/100))).map
    fun r => r.date

/-- The dates the intermittent-failure loop collects as `recoveryDays`. -/
def recoveryDaysOf (records : List DailyRecord) (capacity : Rat) : List Int :=
  (records.filter fun r => decide (¬ r.totalEnergy ≤ capacity * (5/100))).map
    fun r => r.date

/-- `detectIntermittentFailure`: needs ≥ 5 days; partitions days into failure
(≤ 5% of capacity) and recovery days; fires when there are ≥ 2 of each and
two consecutive failure days are more than one day apart. -/
def detectIntermittentFailure (records : List DailyRecord) (solarUnitId : Nat)
    (capacity : Rat) : List Finding :=
  if records.length < 5 then [] else
  if 2 ≤ (failureDaysOf records capacity).length ∧
      2 ≤ (recoveryDaysOf records capacity).length ∧
      hasNonconsecutiveFailures (failureDaysOf records capacity) then
    [intermittentFailureFinding solarUnitId records capacity
      (failureDaysOf records capacity).length]
  else []

/-- The single finding `detectBelowThreshold` pushes when it fires. -/
def belowThresholdFinding (solarUnitId : Nat) (records : List DailyRecord)
    (capacity thresholdPercent : Rat) : Finding :=
  { solarUnitId := solarUnitId
    anomalyType := .BELOW_THRESHOLD
    severity := .INFO
    startDate := (firstRecord records).date
    endDate := (lastRecord records).date
    method := "capacity_percentage_threshold"
    expectedValue := some (capacity * 4)
    actualValue := none
    deviationPercent := none
    threshold := some (capacity * 4 * (thresholdPercent / 100))
    estimatedEnergyLoss := none }

/-- `belowThresholdDays.length`: days with `0 < total < threshold` where
`threshold = capacity * 4 * (thresholdPercent / 100)`. -/
def belowThresholdDayCount (records : List DailyRecord)
    (capacity thresholdPercent : Rat) : Nat :=
  (records.filter (fun r =>
    decide (0 < r.totalEnergy) &&
    decide (r.totalEnergy < capacity * 4 * (thresholdPercent / 100)))).length

/-- `Math.ceil(n * 0.5)` for a natural `n` is `(n + 1) / 2` (Nat division);
`halfRoundedUp_eq_ceil` below checks this against the rational ceiling. -/
def halfRoundedUp (n : Nat) : Nat := (n + 1) / 2

/-- `detectBelowThreshold`: needs ≥ 3 days; fires when the number of non-zero
below-threshold days reaches `Math.ceil(records.length * 0.5)` — the quota is
half of ALL days in the window. -/
def detectBelowThreshold (records : List DailyRecord) (solarUnitId : Nat)
    (capacity thresholdPercent : Rat) : List Finding :=
  if records.length < 3 then [] else
  if halfRoundedUp records.length ≤
      belowThresholdDayCount records capacity thresholdPercent then
    [belowThresholdFinding solarUnitId records capacity thresholdPercent]
  else []

/-- The concatenation of all six detectors exactly as
`detectAnomaliesForSolarUnit` runs them (with the source's default
parameters at each call site). -/
def detectAll (records : List DailyRecord) (solarUnitId : Nat)
    (capacity : Rat) : List Finding :=
  detectZeroProduction records solarUnitId capacity
    ++ detectSignificantDrop records solarUnitId 50
    ++ detectGradualDegradation records solarUnitId 15
    ++ detectSensorSpike records solarUnitId capacity (3/2)
    ++ detectIntermittentFailure records solarUnitId capacity
    ++ detectBelowThreshold records solarUnitId capacity 20

/-- `detectAnomaliesForSolarUnit`: throws when the unit lookup fails, propagates
a failing fetch of the daily records, returns `[]` for an empty series, and
otherwise runs all six detectors. -/
def detectAnomaliesForSolarUnit (capacityLookup : Option Rat)
    (fetched : Except String (List DailyRecord)) (solarUnitId : Nat) :
    Except String (List Finding) :=
  match capacityLookup with
  | none => .error "Solar unit not found"
  | some capacity =>
    match fetched with
    | .error e => .error e
    | .ok records =>
      if records.length = 0 then .ok []
      else .ok (detectAll records solarUnitId capacity)

/-- A persisted anomaly record: the finding payload plus the resolution
status the persister / state machine maintains. -/
structure StoredAnomaly where
  finding : Finding
  status : ResolutionStatus
deriving DecidableEq, Repr

/-- The dedup query of `runAnomalyDetectionJob`: an existing anomaly matches a
finding on `(solarUnitId, anomalyType, affectedPeriod.startDate,
affectedPeriod.endDate)`. -/
def matchesDedupKey (a : StoredAnomaly) (f : Finding) : Bool :=
  decide (a.finding.solarUnitId = f.solarUnitId) &&
  decide (a.finding.anomalyType = f.anomalyType) &&
  decide (a.finding.startDate = f.startDate) &&
  decide (a.finding.endDate = f.endDate)

/-- `Anomaly.findOne({...})` on the dedup key returns a hit. -/
def existsMatch (store : List StoredAnomaly) (f : Finding) : Bool :=
  store.any fun a => matchesDedupKey a f

/-- The per-unit save loop: for each finding, skip it when a dedup match
exists, otherwise `Anomaly.create({...anomaly, status: OPEN})`; returns the
grown store and the number of inserts (`newAnomaliesSaved`). -/
def persistFindings : List StoredAnomaly → List Finding → List StoredAnomaly × Nat
  | store, [] => (store, 0)
  | store, f :: fs =>
    if existsMatch store f then persistFindings store fs
    else
      let rest := persistFindings (store ++ [{ finding := f, status := .OPEN }]) fs
      (rest.1, rest.2 + 1)

/-- One active solar unit as the job sees it: its identity, capacity, and the
result of fetching its daily aggregates (an `Except` models the storage read
that may throw). -/
structure JobUnit where
  id : Nat
  capacity : Rat
  fetched : Except String (List DailyRecord)
deriving Repr

/-- The per-unit analysis call `detectAnomaliesForSolarUnit(solarUnit._id)`
made by the job. -/
def analyzeUnit (u : JobUnit) : Except String (List Finding) :=
  detectAnomaliesForSolarUnit (some u.capacity) u.fetched u.id

/-- The device loop of `runAnomalyDetectionJob`: per unit, a thrown analysis
error is caught and skipped; otherwise the findings are counted and
persisted.  Returns (store, anomaliesFound, newAnomalies). -/
def runJobAux : List JobUnit → List StoredAnomaly → List StoredAnomaly × Nat × Nat
  | [], store => (store, 0, 0)
  | u :: us, store =>
    match analyzeUnit u with
    | .error _ => runJobAux us store
    | .ok findings =>
      let saved := persistFindings store findings
      let rest := runJobAux us saved.1
      (rest.1, findings.length + rest.2.1, saved.2 + rest.2.2)

/-- The run summary `{ processed, anomaliesFound, newAnomalies }`. -/
structure JobSummary where
  processed : Nat
  anomaliesFound : Nat
  newAnomalies : Nat
deriving DecidableEq, Repr

/-- `runAnomalyDetectionJob`: analyzes every active unit, reporting
`processed = activeSolarUnits.length` and the accumulated counts, together
with the final stored anomaly set. -/
def runAnomalyDetectionJob (units : List JobUnit) (store : List StoredAnomaly) :
    JobSummary × List StoredAnomaly :=
  ({ processed := units.length
     anomaliesFound := (runJobAux units store).2.1
     newAnomalies := (runJobAux units store).2.2 },
   (runJobAux units store).1)

/-- The operator action of `updateAnomalyStatus`. -/
inductive AnomalyAction where
  | acknowledge
  | resolve
  | false_positive
deriving DecidableEq, Repr

/-- A stored anomaly's lifecycle fields as `updateAnomalyStatus` touches
them (timestamps as integers, user ids as naturals). -/
structure AnomalyDoc where
  status : ResolutionStatus
  acknowledgedAt : Option Int
  acknowledgedBy : Option Nat
  resolvedAt : Option Int
  resolvedBy : Option Nat
  resolutionNotes : Option String
deriving DecidableEq, Repr

/-- The `switch (action)` body of `updateAnomalyStatus`: sets the new status
and stamps the matching audit fields; notes are stored only when given. -/
def applyAction (a : AnomalyDoc) (userId : Nat) (action : AnomalyAction)
    (notes : Option String) (now : Int) : AnomalyDoc :=
  match action with
  | .acknowledge =>
    { a with
      status := .ACKNOWLEDGED
      acknowledgedAt := some now
      acknowledgedBy := some userId }
  | .resolve =>
    { a with
      status := .RESOLVED
      resolvedAt := some now
      resolvedBy := some userId
      resolutionNotes := match notes with | some n => some n | none => a.resolutionNotes }
  | .false_positive =>
    { a with
      status := .FALSE_POSITIVE
      resolvedAt := some now
      resolvedBy := some userId
      resolutionNotes := match notes with | some n => some n | none => a.resolutionNotes }

/-- `updateAnomalyStatus`: looks the anomaly up by id (error when absent),
applies the action unconditionally, and saves the mutated document. -/
def updateAnomalyStatus (store : List (Nat × AnomalyDoc)) (anomalyId userId : Nat)
    (action : AnomalyAction) (notes : Option String) (now : Int) :
    Except String (AnomalyDoc × List (Nat × AnomalyDoc)) :=
  match store.find? (fun p => decide (p.1 = anomalyId)) with
  | none => .error "Anomaly not found"
  | some p =>
    .ok (applyAction p.2 userId action notes now,
      store.map fun q =>
        if q.1 = anomalyId then (q.1, applyAction p.2 userId action notes now) else q)

/-- The spec's fixed severity mapping (§4.2 table): the severity each
anomaly type must always carry. -/
def severityOf : AnomalyType → Severity
  | .ZERO_PRODUCTION => .CRITICAL
  | .SIGNIFICANT_DROP => .WARNING
  | .GRADUAL_DEGRADATION => .WARNING
  | .SENSOR_SPIKE => .INFO
  | .INTERMITTENT_FAILURE => .WARNING
  | .BELOW_THRESHOLD => .INFO

/-- The status each operator action writes, for stating the amended C1. -/
def targetStatus : AnomalyAction → ResolutionStatus
  | .acknowledge => .ACKNOWLEDGED
  | .resolve => .RESOLVED
  | .false_positive => .FALSE_POSITIVE

/-- Spec scenario input: 14-day window, capacity 5000, day 5 total 20,
all other days healthy. -/
def zeroScenarioRecords : List DailyRecord :=
  [⟨1, 3000⟩, ⟨2, 3000⟩, ⟨3, 3000⟩, ⟨4, 3000⟩, ⟨5, 20⟩, ⟨6, 3000⟩, ⟨7, 3000⟩,
   ⟨8, 3000⟩, ⟨9, 3000⟩, ⟨10, 3000⟩, ⟨11, 3000⟩, ⟨12, 3000⟩, ⟨13, 3000⟩, ⟨14, 3000⟩]

/-- Spec scenario input: window mean 1000, one non-zero day 60% below it. -/
def dropScenarioRecords : List DailyRecord :=
  [⟨1, 400⟩, ⟨2, 1000⟩, ⟨3, 1600⟩]

/-- A 7-day window declining by exactly 1 per day: slope −1, mean 40, implied
decline exactly 15% of the mean — the boundary case of the degradation
detector. -/
def gradBoundaryRecords : List DailyRecord :=
  [⟨0, 43⟩, ⟨1, 42⟩, ⟨2, 41⟩, ⟨3, 40⟩, ⟨4, 39⟩, ⟨5, 38⟩, ⟨6, 37⟩]

/-- A 7-day window declining by 2 per day: slope −2, mean 37, implied decline
1200/37 % ≈ 32.4% of the mean — fires the degradation detector. -/
def gradFiringRecords : List DailyRecord :=
  [⟨0, 43⟩, ⟨1, 41⟩, ⟨2, 39⟩, ⟨3, 37⟩, ⟨4, 35⟩, ⟨5, 33⟩, ⟨6, 31⟩]

/-- Five-day window with three zero days, one low non-zero day and one healthy
day; at capacity 100 it separates the claimed BELOW_THRESHOLD trigger from
the implemented one. -/
def belowCexRecords : List DailyRecord :=
  [⟨1, 0⟩, ⟨2, 0⟩, ⟨3, 0⟩, ⟨4, 10⟩, ⟨5, 5000⟩]

/-- The BELOW_THRESHOLD trigger as claim C3 words it, for comparison with the
implementation: at least 50% of the window's NON-ZERO days fall below 20% of
the baseline `capacity * 4` (and the window has at least 3 days). -/
def claimedBelowThresholdTrigger (records : List DailyRecord) (capacity : Rat) : Prop :=
  3 ≤ records.length ∧
  (records.filter fun r => decide (r.totalEnergy ≠ 0)).length ≤
    2 * (records.filter fun r =>
      decide (0 < r.totalEnergy) &&
      decide (r.totalEnergy < capacity * 4 * (20/100))).length

/-- A stored anomaly document already in the terminal RESOLVED state. -/
def resolvedDoc : AnomalyDoc :=
  { status := .RESOLVED
    acknowledgedAt := none
    acknowledgedBy := none
    resolvedAt := some 50
    resolvedBy := some 3
    resolutionNotes := none }

/-- What `acknowledge` actually turns `resolvedDoc` into. -/
def ackedResolvedDoc : AnomalyDoc :=
  { resolvedDoc with
    status := .ACKNOWLEDGED
    acknowledgedAt := some 100
    acknowledgedBy := some 7 }

/-- A job unit whose daily-record fetch throws (models a storage error while
analyzing that device). -/
def failingUnit : JobUnit :=
  { id := 9, capacity := 100, fetched := .error "storage read failed" }

/-- A healthy two-day series for witnesses: day 1 is a zero-production day at
capacity 5000, day 2 is normal. -/
def witnessRecords : List DailyRecord :=
  [⟨1, 20⟩, ⟨2, 3000⟩]

-- Sanity examples (concrete evaluations of the embedding).
example : detectAll [] 1 100 = [] := by rfl
example :
    detectZeroProduction [⟨1, 20⟩, ⟨2, 3000⟩] 7 5000 =
      [zeroProductionFinding 7 5000 ⟨1, 20⟩] := by
  norm_num [detectZeroProduction, List.filterMap]
/-- The Nat-division rendering of `Math.ceil(n * 0.5)` agrees with the
rational ceiling for every window length. -/
theorem halfRoundedUp_eq_ceil (n : Nat) :
    halfRoundedUp n = Nat.ceil ((n : Rat) * (1/2)) := by
  rcases Nat.eq_zero_or_pos n with h0 | hpos
  · subst h0; simp [halfRoundedUp]
  · have hk0 : halfRoundedUp n ≠ 0 := by
      unfold halfRoundedUp; omega
    have h1 : n ≤ 2 * halfRoundedUp n := by unfold halfRoundedUp; omega
    have h2 : 2 * halfRoundedUp n ≤ n + 1 := by unfold halfRoundedUp; omega
    symm
    rw [Nat.ceil_eq_iff hk0]
    have hcast : ((halfRoundedUp n - 1 : Nat) : Rat) = (halfRoundedUp n : Rat) - 1 := by
      have : 1 ≤ halfRoundedUp n := Nat.one_le_iff_ne_zero.mpr hk0
      push_cast [this]
      ring
    constructor
    · rw [hcast]
      have : (2 * halfRoundedUp n : Rat) ≤ (n : Rat) + 1 := by exact_mod_cast h2
      linarith
    · have : (n : Rat) ≤ (2 * halfRoundedUp n : Rat) := by exact_mod_cast h1
      push_cast at this ⊢
      linarith

example :
    detectBelowThreshold [⟨1, 10⟩, ⟨2, 20⟩, ⟨3, 5000⟩] 4 100 20 =
      [belowThresholdFinding 4 [⟨1, 10⟩, ⟨2, 20⟩, ⟨3, 5000⟩] 100 20] := by
  norm_num [detectBelowThreshold, belowThresholdDayCount, halfRoundedUp, List.filter]

/-- Membership characterization of the ZERO_PRODUCTION detector. -/
theorem mem_detectZeroProduction_iff (records : List DailyRecord)
    (solarUnitId : Nat) (capacity : Rat) (f : Finding) :
    f ∈ detectZeroProduction records solarUnitId capacity ↔
      ∃ r ∈ records, r.totalEnergy ≤ capacity * (1/100) ∧
        f = zeroProductionFinding solarUnitId capacity r := by
  simp only [detectZeroProduction, List.mem_filterMap]
  constructor
  · rintro ⟨r, hr, hf⟩
    by_cases h : r.totalEnergy ≤ capacity * (1/100)
    · rw [if_pos h] at hf
      exact ⟨r, hr, h, (Option.some.inj hf).symm⟩
    · rw [if_neg h] at hf
      cases hf
  · rintro ⟨r, hr, h, rfl⟩
    exact ⟨r, hr, by rw [if_pos h]⟩

/-- Membership characterization of the SIGNIFICANT_DROP detector. -/
theorem mem_detectSignificantDrop_iff (records : List DailyRecord)
    (solarUnitId : Nat) (t : Rat) (f : Finding) :
    f ∈ detectSignificantDrop records solarUnitId t ↔
      3 ≤ records.length ∧
      ∃ r ∈ records, r.totalEnergy ≠ 0 ∧
        ((windowAverage records - r.totalEnergy) / windowAverage records) * 100 > t ∧
        f = significantDropFinding solarUnitId (windowAverage records) t r := by
  unfold detectSignificantDrop
  by_cases h3 : records.length < 3
  · rw [if_pos h3]
    simp only [List.not_mem_nil, false_iff]
    rintro ⟨h, -⟩
    omega
  · rw [if_neg h3]
    simp only [List.mem_filterMap]
    constructor
    · rintro ⟨r, hr, hf⟩
      refine ⟨by omega, ?_⟩
      by_cases hz : r.totalEnergy = 0
      · rw [if_pos hz] at hf
        cases hf
      · rw [if_neg hz] at hf
        by_cases hgt :
            ((windowAverage records - r.totalEnergy) / windowAverage records) * 100 > t
        · rw [if_pos hgt] at hf
          exact ⟨r, hr, hz, hgt, (Option.some.inj hf).symm⟩
        · rw [if_neg hgt] at hf
          cases hf
    · rintro ⟨-, r, hr, hz, hgt, rfl⟩
      exact ⟨r, hr, by rw [if_neg hz, if_pos hgt]⟩

/-- Membership characterization of the SENSOR_SPIKE detector. -/
theorem mem_detectSensorSpike_iff (records : List DailyRecord)
    (solarUnitId : Nat) (capacity m : Rat) (f : Finding) :
    f ∈ detectSensorSpike records solarUnitId capacity m ↔
      ∃ r ∈ records, r.totalEnergy > capacity * 8 * m ∧
        f = sensorSpikeFinding solarUnitId capacity m r := by
  simp only [detectSensorSpike, List.mem_filterMap]
  constructor
  · rintro ⟨r, hr, hf⟩
    by_cases h : r.totalEnergy > capacity * 8 * m
    · rw [if_pos h] at hf
      exact ⟨r, hr, h, (Option.some.inj hf).symm⟩
    · rw [if_neg h] at hf
      cases hf
  · rintro ⟨r, hr, h, rfl⟩
    exact ⟨r, hr, by rw [if_pos h]⟩

/-- Equation characterization of the GRADUAL_DEGRADATION detector. -/
theorem detectGradualDegradation_eq (records : List DailyRecord)
    (solarUnitId : Nat) (t : Rat) :
    detectGradualDegradation records solarUnitId t =
      if 7 ≤ records.length ∧ regressionSlope records < 0 ∧
          declinePercentOf records > t then
        [gradualDegradationFinding solarUnitId records t]
      else [] := by
  unfold detectGradualDegradation
  by_cases h7 : records.length < 7
  · rw [if_pos h7, if_neg]
    rintro ⟨h, -⟩
    omega
  · rw [if_neg h7]
    by_cases hc : regressionSlope records < 0 ∧ declinePercentOf records > t
    · rw [if_pos hc, if_pos ⟨by omega, hc.1, hc.2⟩]
    · rw [if_neg hc, if_neg]
      rintro ⟨-, h1, h2⟩
      exact hc ⟨h1, h2⟩

/-- Equation characterization of the INTERMITTENT_FAILURE detector. -/
theorem detectIntermittentFailure_eq (records : List DailyRecord)
    (solarUnitId : Nat) (capacity : Rat) :
    detectIntermittentFailure records solarUnitId capacity =
      if 5 ≤ records.length ∧ 2 ≤ (failureDaysOf records capacity).length ∧
          2 ≤ (recoveryDaysOf records capacity).length ∧
          hasNonconsecutiveFailures (failureDaysOf records capacity) then
        [intermittentFailureFinding solarUnitId records capacity
          (failureDaysOf records capacity).length]
      else [] := by
  unfold detectIntermittentFailure
  by_cases h5 : records.length < 5
  · rw [if_pos h5, if_neg]
    rintro ⟨h, -⟩
    omega
  · rw [if_neg h5]
    by_cases hc : 2 ≤ (failureDaysOf records capacity).length ∧
        2 ≤ (recoveryDaysOf records capacity).length ∧
        hasNonconsecutiveFailures (failureDaysOf records capacity)
    · rw [if_pos hc, if_pos ⟨by omega, hc.1, hc.2.1, hc.2.2⟩]
    · rw [if_neg hc, if_neg]
      rintro ⟨-, h1, h2, h3⟩
      exact hc ⟨h1, h2, h3⟩

/-- Equation characterization of the BELOW_THRESHOLD detector. -/
theorem detectBelowThreshold_eq (records : List DailyRecord)
    (solarUnitId : Nat) (capacity t : Rat) :
    detectBelowThreshold records solarUnitId capacity t =
      if 3 ≤ records.length ∧ halfRoundedUp records.length ≤
          belowThresholdDayCount records capacity t then
        [belowThresholdFinding solarUnitId records capacity t]
      else [] := by
  unfold detectBelowThreshold
  by_cases h3 : records.length < 3
  · rw [if_pos h3, if_neg]
    rintro ⟨h, -⟩
    omega
  · rw [if_neg h3]
    by_cases hq : halfRoundedUp records.length ≤
        belowThresholdDayCount records capacity t
    · rw [if_pos hq, if_pos ⟨by omega, hq⟩]
    · rw [if_neg hq, if_neg]
      rintro ⟨-, h⟩
      exact hq h

/-- A freshly persisted record matches its own finding's dedup key. -/
theorem matchesDedupKey_self (f : Finding) (st : ResolutionStatus) :
    matchesDedupKey ⟨f, st⟩ f = true := by
  simp [matchesDedupKey]

/-- Persisting only ever appends: existing records stay in the store. -/
theorem mem_persistFindings (fs : List Finding) :
    ∀ (store : List StoredAnomaly) (a : StoredAnomaly),
      a ∈ store → a ∈ (persistFindings store fs).1 := by
  induction fs with
  | nil =>
    intro store a h
    simpa [persistFindings] using h
  | cons f fs ih =>
    intro store a h
    simp only [persistFindings]
    split
    · exact ih store a h
    · exact ih _ a (List.mem_append_left _ h)

/-- A dedup hit is preserved by growing the store. -/
theorem existsMatch_mono {store store' : List StoredAnomaly} {f : Finding}
    (hsub : ∀ b ∈ store, b ∈ store') (hm : existsMatch store f = true) :
    existsMatch store' f = true := by
  simp only [existsMatch, List.any_eq_true] at hm ⊢
  obtain ⟨a, ha, hk⟩ := hm
  exact ⟨a, hsub a ha, hk⟩

/-- A dedup hit is preserved by persisting more findings. -/
theorem existsMatch_persistFindings (fs : List Finding)
    (store : List StoredAnomaly) {f : Finding} (hm : existsMatch store f = true) :
    existsMatch (persistFindings store fs).1 f = true :=
  existsMatch_mono (fun b hb => mem_persistFindings fs store b hb) hm

/-- After the save loop runs, every processed finding has a dedup match in
the resulting store (it was either already there or was just inserted). -/
theorem persistFindings_covers (fs : List Finding) :
    ∀ (store : List StoredAnomaly), ∀ f ∈ fs,
      existsMatch (persistFindings store fs).1 f = true := by
  induction fs with
  | nil =>
    intro store f hf
    cases hf
  | cons g gs ih =>
    intro store f hf
    simp only [persistFindings]
    split
    · rcases List.mem_cons.mp hf with rfl | hf'
      · exact existsMatch_persistFindings gs store (by assumption)
      · exact ih store f hf'
    · rcases List.mem_cons.mp hf with rfl | hf'
      · refine existsMatch_persistFindings gs _ ?_
        simp [existsMatch, List.any_append, matchesDedupKey_self]
      · exact ih _ f hf'

/-- When every finding already has a dedup match, the save loop inserts
nothing and leaves the store untouched. -/
theorem persistFindings_noop (fs : List Finding) :
    ∀ (store : List StoredAnomaly),
      (∀ f ∈ fs, existsMatch store f = true) →
      persistFindings store fs = (store, 0) := by
  induction fs with
  | nil =>
    intro store _
    rfl
  | cons g gs ih =>
    intro store h
    simp only [persistFindings]
    rw [if_pos (h g (List.mem_cons_self g gs))]
    exact ih store fun f hf => h f (List.mem_cons_of_mem g hf)

/-- The device loop only ever appends to the store. -/
theorem mem_runJobAux (units : List JobUnit) :
    ∀ (store : List StoredAnomaly) (a : StoredAnomaly),
      a ∈ store → a ∈ (runJobAux units store).1 := by
  induction units with
  | nil =>
    intro store a h
    simpa [runJobAux] using h
  | cons u us ih =>
    intro store a h
    simp only [runJobAux]
    cases hau : analyzeUnit u with
    | error e => exact ih store a h
    | ok fs => exact ih _ a (mem_persistFindings fs store a h)

/-- After the device loop, every finding of every successfully analyzed unit
has a dedup match in the final store. -/
theorem runJobAux_covers (units : List JobUnit) :
    ∀ (store : List StoredAnomaly), ∀ u ∈ units, ∀ fs,
      analyzeUnit u = .ok fs → ∀ f ∈ fs,
      existsMatch (runJobAux units store).1 f = true := by
  induction units with
  | nil =>
    intro store u hu
    cases hu
  | cons v vs ih =>
    intro store u hu fs hfs f hf
    simp only [runJobAux]
    rcases List.mem_cons.mp hu with rfl | hu'
    · cases hau : analyzeUnit u with
      | error e =>
        rw [hau] at hfs
        cases hfs
      | ok gs =>
        rw [hau] at hfs
        injection hfs with hgs
        subst hgs
        exact existsMatch_mono (fun b hb => mem_runJobAux vs _ b hb)
          (persistFindings_covers _ store f hf)
    · cases hau : analyzeUnit v with
      | error e => exact ih store u hu' fs hfs f hf
      | ok gs => exact ih _ u hu' fs hfs f hf

/-- When every finding any unit can produce already has a dedup match in the
store, the device loop inserts nothing and leaves the store untouched. -/
theorem runJobAux_noop (units : List JobUnit) :
    ∀ (store : List StoredAnomaly),
      (∀ u ∈ units, ∀ fs, analyzeUnit u = .ok fs → ∀ f ∈ fs,
        existsMatch store f = true) →
      (runJobAux units store).1 = store ∧ (runJobAux units store).2.2 = 0 := by
  induction units with
  | nil =>
    intro store _
    exact ⟨rfl, rfl⟩
  | cons u us ih =>
    intro store h
    simp only [runJobAux]
    cases hau : analyzeUnit u with
    | error e =>
      exact ih store fun v hv => h v (List.mem_cons_of_mem u hv)
    | ok fs =>
      have hn := persistFindings_noop fs store (h u (List.mem_cons_self u us) fs hau)
      have hrest := ih store fun v hv => h v (List.mem_cons_of_mem u hv)
      simp only [hn]
      exact ⟨hrest.1, by simp [hrest.2]⟩

/-- Dropping a unit whose analysis throws does not change the device loop's
result on the remaining units. -/
theorem runJobAux_skip_error {u : JobUnit} {e : String}
    (h : analyzeUnit u = .error e) (us1 us2 : List JobUnit) :
    ∀ (store : List StoredAnomaly),
      runJobAux (us1 ++ u :: us2) store = runJobAux (us1 ++ us2) store := by
  induction us1 with
  | nil =>
    intro store
    simp only [List.nil_append, runJobAux, h]
  | cons v vs ih =>
    intro store
    simp only [List.cons_append, runJobAux]
    cases hav : analyzeUnit v with
    | error _ => exact ih store
    | ok fs =>
      dsimp only
      simp only [List.append_eq]
      rw [ih]

/-- Every finding the detector set produces is one of the six literal
finding shapes. -/
theorem mem_detectAll_cases {records : List DailyRecord} {i : Nat} {c : Rat}
    {f : Finding} (h : f ∈ detectAll records i c) :
    (∃ r, f = zeroProductionFinding i c r) ∨
    (∃ r, f = significantDropFinding i (windowAverage records) 50 r) ∨
    f = gradualDegradationFinding i records 15 ∨
    (∃ r, f = sensorSpikeFinding i c (3/2) r) ∨
    f = intermittentFailureFinding i records c (failureDaysOf records c).length ∨
    f = belowThresholdFinding i records c 20 := by
  simp only [detectAll, List.mem_append] at h
  rcases h with ((((h | h) | h) | h) | h) | h
  · obtain ⟨r, -, -, rfl⟩ := (mem_detectZeroProduction_iff records i c f).mp h
    exact Or.inl ⟨r, rfl⟩
  · obtain ⟨-, r, -, -, -, rfl⟩ := (mem_detectSignificantDrop_iff records i 50 f).mp h
    exact Or.inr (Or.inl ⟨r, rfl⟩)
  · rw [detectGradualDegradation_eq] at h
    refine Or.inr (Or.inr (Or.inl ?_))
    by_cases hc : 7 ≤ records.length ∧ regressionSlope records < 0 ∧
        declinePercentOf records > 15
    · rw [if_pos hc] at h
      simpa using h
    · rw [if_neg hc] at h
      cases h
  · obtain ⟨r, -, -, rfl⟩ := (mem_detectSensorSpike_iff records i c (3/2) f).mp h
    exact Or.inr (Or.inr (Or.inr (Or.inl ⟨r, rfl⟩)))
  · rw [detectIntermittentFailure_eq] at h
    refine Or.inr (Or.inr (Or.inr (Or.inr (Or.inl ?_))))
    by_cases hc : 5 ≤ records.length ∧ 2 ≤ (failureDaysOf records c).length ∧
        2 ≤ (recoveryDaysOf records c).length ∧
        hasNonconsecutiveFailures (failureDaysOf records c)
    · rw [if_pos hc] at h
      simpa using h
    · rw [if_neg hc] at h
      cases h
  · rw [detectBelowThreshold_eq] at h
    refine Or.inr (Or.inr (Or.inr (Or.inr (Or.inr ?_))))
    by_cases hc : 3 ≤ records.length ∧ halfRoundedUp records.length ≤
        belowThresholdDayCount records c 20
    · rw [if_pos hc] at h
      simpa using h
    · rw [if_neg hc] at h
      cases h

/-- Every finding of the detector set carries the severity its type maps to. -/
theorem detectAll_severity {records : List DailyRecord} {i : Nat} {c : Rat}
    {f : Finding} (h : f ∈ detectAll records i c) :
    f.severity = severityOf f.anomalyType := by
  rcases mem_detectAll_cases h with ⟨r, rfl⟩ | ⟨r, rfl⟩ | rfl | ⟨r, rfl⟩ | rfl | rfl <;> rfl

/-- Every finding of the detector set has `estimatedEnergyLoss` absent
exactly for the SENSOR_SPIKE and BELOW_THRESHOLD types. -/
theorem detectAll_energyLoss {records : List DailyRecord} {i : Nat} {c : Rat}
    {f : Finding} (h : f ∈ detectAll records i c) :
    f.estimatedEnergyLoss = none ↔
      (f.anomalyType = .SENSOR_SPIKE ∨ f.anomalyType = .BELOW_THRESHOLD) := by
  rcases mem_detectAll_cases h with ⟨r, rfl⟩ | ⟨r, rfl⟩ | rfl | ⟨r, rfl⟩ | rfl | rfl <;>
    simp [zeroProductionFinding, significantDropFinding, gradualDegradationFinding,
      sensorSpikeFinding, intermittentFailureFinding, belowThresholdFinding]

/-- A successful per-unit analysis returns either the empty list or the
detector set's output on the fetched records. -/
theorem analyzeUnit_ok {u : JobUnit} {fs : List Finding}
    (h : analyzeUnit u = .ok fs) :
    fs = [] ∨ ∃ records, u.fetched = .ok records ∧
      fs = detectAll records u.id u.capacity := by
  unfold analyzeUnit detectAnomaliesForSolarUnit at h
  cases hf : u.fetched with
  | error e =>
    rw [hf] at h
    cases h
  | ok records =>
    rw [hf] at h
    dsimp only at h
    by_cases hlen : records.length = 0
    · rw [if_pos hlen] at h
      injection h with h
      exact Or.inl h.symm
    · rw [if_neg hlen] at h
      injection h with h
      exact Or.inr ⟨records, rfl, h.symm⟩

/-- Everything in the store after the save loop was either already stored or
is one of the loop's findings persisted in state OPEN. -/
theorem mem_persistFindings_src (fs : List Finding) :
    ∀ (store : List StoredAnomaly) (a : StoredAnomaly),
      a ∈ (persistFindings store fs).1 →
      a ∈ store ∨ ∃ f ∈ fs, a = ⟨f, .OPEN⟩ := by
  induction fs with
  | nil =>
    intro store a h
    exact Or.inl (by simpa [persistFindings] using h)
  | cons g gs ih =>
    intro store a h
    simp only [persistFindings] at h
    by_cases hm : existsMatch store g = true
    · rw [if_pos hm] at h
      rcases ih store a h with h' | ⟨f, hf, rfl⟩
      · exact Or.inl h'
      · exact Or.inr ⟨f, List.mem_cons_of_mem g hf, rfl⟩
    · rw [if_neg hm] at h
      rcases ih _ a h with h' | ⟨f, hf, rfl⟩
      · rcases List.mem_append.mp h' with h'' | h''
        · exact Or.inl h''
        · refine Or.inr ⟨g, List.mem_cons_self g gs, ?_⟩
          simpa using h''
      · exact Or.inr ⟨f, List.mem_cons_of_mem g hf, rfl⟩

/-- Everything in the store after the device loop was either already stored
or is an OPEN record of a finding of some successfully analyzed unit. -/
theorem mem_runJobAux_src (units : List JobUnit) :
    ∀ (store : List StoredAnomaly) (a : StoredAnomaly),
      a ∈ (runJobAux units store).1 →
      a ∈ store ∨ ∃ u ∈ units, ∃ fs, analyzeUnit u = .ok fs ∧
        ∃ f ∈ fs, a = ⟨f, .OPEN⟩ := by
  induction units with
  | nil =>
    intro store a h
    exact Or.inl (by simpa [runJobAux] using h)
  | cons u us ih =>
    intro store a h
    simp only [runJobAux] at h
    cases hau : analyzeUnit u with
    | error e =>
      rw [hau] at h
      rcases ih store a h with h' | ⟨v, hv, fs, hfs, hf⟩
      · exact Or.inl h'
      · exact Or.inr ⟨v, List.mem_cons_of_mem u hv, fs, hfs, hf⟩
    | ok gs =>
      rw [hau] at h
      dsimp only at h
      rcases ih _ a h with h' | ⟨v, hv, fs, hfs, hf⟩
      · rcases mem_persistFindings_src gs store a h' with h'' | ⟨f, hf, rfl⟩
        · exact Or.inl h''
        · exact Or.inr ⟨u, List.mem_cons_self u us, gs, hau, f, hf, rfl⟩
      · exact Or.inr ⟨v, List.mem_cons_of_mem u hv, fs, hfs, hf⟩

/-- C10: a device with no readings at all in the window produces no finding
of any type: the per-unit pipeline returns the empty list (not an error) on
an empty daily series, and the detector set itself is empty on the empty
series. -/
theorem empty_series_no_findings :
    (∀ (capacity : Rat) (solarUnitId : Nat),
      detectAnomaliesForSolarUnit (some capacity) (.ok []) solarUnitId = .ok []) ∧
    (∀ (solarUnitId : Nat) (capacity : Rat), detectAll [] solarUnitId capacity = []) :=
  ⟨fun _ _ => rfl, fun _ _ => rfl⟩

/-- C5: the ZERO_PRODUCTION detector produces exactly one CRITICAL finding
per day whose total is at most 1% of capacity, with the affected period
equal to that day, expected value 50% of capacity and actual value the
day's total; other days produce nothing.  At capacity 5000 with a day total
of 20, the finding has `actualValue = 20` and `expectedValue = 2500`. -/
theorem zero_production_correct :
    (∀ (records : List DailyRecord) (solarUnitId : Nat) (capacity : Rat) (f : Finding),
      f ∈ detectZeroProduction records solarUnitId capacity ↔
        ∃ r ∈ records, r.totalEnergy ≤ capacity * (1/100) ∧
          f = zeroProductionFinding solarUnitId capacity r) ∧
    detectZeroProduction zeroScenarioRecords 7 5000 =
      [zeroProductionFinding 7 5000 ⟨5, 20⟩] ∧
    (zeroProductionFinding 7 5000 ⟨5, 20⟩).severity = .CRITICAL ∧
    (zeroProductionFinding 7 5000 ⟨5, 20⟩).startDate = 5 ∧
    (zeroProductionFinding 7 5000 ⟨5, 20⟩).endDate = 5 ∧
    (zeroProductionFinding 7 5000 ⟨5, 20⟩).actualValue = some 20 ∧
    (zeroProductionFinding 7 5000 ⟨5, 20⟩).expectedValue = some 2500 := by
  refine ⟨mem_detectZeroProduction_iff, ?_, rfl, rfl, rfl, rfl, ?_⟩
  · norm_num [detectZeroProduction, zeroScenarioRecords, List.filterMap]
  · norm_num [zeroProductionFinding]

/-- C1 counterexample: calling `acknowledge` on an anomaly already in
RESOLVED state does not signal any failure; `updateAnomalyStatus` succeeds
and overwrites the status with ACKNOWLEDGED and stamps the audit fields. -/
theorem acknowledge_on_resolved_succeeds :
    resolvedDoc.status = .RESOLVED ∧
    updateAnomalyStatus [(1, resolvedDoc)] 1 7 .acknowledge none 100 =
      .ok (ackedResolvedDoc, [(1, ackedResolvedDoc)]) ∧
    ackedResolvedDoc.status = .ACKNOWLEDGED :=
  ⟨rfl, rfl, rfl⟩

/-- C1 (amended): `updateAnomalyStatus` performs no state-transition
validation: whenever the anomaly id is found, the operation succeeds
unconditionally — regardless of the current status, including RESOLVED and
FALSE_POSITIVE — applying the action's field updates and storing the status
the action targets; no `InvalidStateTransition` failure exists. -/
theorem updateAnomalyStatus_no_validation
    (store : List (Nat × AnomalyDoc)) (anomalyId userId : Nat)
    (action : AnomalyAction) (notes : Option String) (now : Int)
    (p : Nat × AnomalyDoc)
    (h : store.find? (fun q => decide (q.1 = anomalyId)) = some p) :
    updateAnomalyStatus store anomalyId userId action notes now =
      .ok (applyAction p.2 userId action notes now,
        store.map fun q =>
          if q.1 = anomalyId then (q.1, applyAction p.2 userId action notes now)
          else q) ∧
    (applyAction p.2 userId action notes now).status = targetStatus action := by
  constructor
  · unfold updateAnomalyStatus
    rw [h]
  · cases action <;> rfl

/-- C1 witness: the amended statement instantiated on an anomaly that is
already RESOLVED, acknowledged by user 7 at time 100. -/
theorem updateAnomalyStatus_no_validation_witness :
    updateAnomalyStatus [(1, resolvedDoc)] 1 7 .acknowledge none 100 =
      .ok (applyAction resolvedDoc 7 .acknowledge none 100,
        [(1, resolvedDoc)].map fun q =>
          if q.1 = 1 then (q.1, applyAction resolvedDoc 7 .acknowledge none 100)
          else q) ∧
    (applyAction resolvedDoc 7 .acknowledge none 100).status =
      targetStatus .acknowledge :=
  updateAnomalyStatus_no_validation [(1, resolvedDoc)] 1 7 .acknowledge none 100
    (1, resolvedDoc) rfl

/-- C3 counterexample: on a five-day window `[0, 0, 0, 10, 5000]` at
capacity 100, 50% of the non-zero days (one of two) are below 20% of the
baseline, so the claimed trigger fires, but the implementation compares the
below-threshold count (1) against half of ALL days (⌈5/2⌉ = 3) and produces
no finding. -/
theorem below_threshold_claim_false :
    claimedBelowThresholdTrigger belowCexRecords 100 ∧
    detectBelowThreshold belowCexRecords 7 100 20 = [] := by
  constructor
  · norm_num [claimedBelowThresholdTrigger, belowCexRecords, List.filter]
  · norm_num [detectBelowThreshold, belowCexRecords, belowThresholdDayCount,
      halfRoundedUp, List.filter]

/-- C3 (amended): the BELOW_THRESHOLD detector (threshold 20%) produces its
single finding exactly when the window has at least 3 days and the number
of non-zero days strictly below 20% of the baseline (capacity × 4) reaches
⌈(number of ALL days in the window) / 2⌉ — the 50% quota is taken over the
whole window, not only its non-zero days. -/
theorem below_threshold_trigger_correct
    (records : List DailyRecord) (solarUnitId : Nat) (capacity : Rat) :
    detectBelowThreshold records solarUnitId capacity 20 =
      if 3 ≤ records.length ∧ halfRoundedUp records.length ≤
          belowThresholdDayCount records capacity 20 then
        [belowThresholdFinding solarUnitId records capacity 20]
      else [] :=
  detectBelowThreshold_eq records solarUnitId capacity 20

/-- C6: the SIGNIFICANT_DROP detector (threshold 50) flags exactly the
non-zero days whose deviation `((mean - total) / mean) * 100` strictly
exceeds 50, with expected value the window mean, actual value the day's
total, and that deviation percentage; windows shorter than 3 days produce
nothing.  With mean 1000 and one non-zero day at 400, exactly one finding
is produced with `deviationPercent = 60`. -/
theorem significant_drop_correct :
    (∀ (records : List DailyRecord) (solarUnitId : Nat) (f : Finding),
      f ∈ detectSignificantDrop records solarUnitId 50 ↔
        3 ≤ records.length ∧
        ∃ r ∈ records, r.totalEnergy ≠ 0 ∧
          ((windowAverage records - r.totalEnergy) / windowAverage records) * 100 > 50 ∧
          f = significantDropFinding solarUnitId (windowAverage records) 50 r) ∧
    windowAverage dropScenarioRecords = 1000 ∧
    detectSignificantDrop dropScenarioRecords 7 50 =
      [significantDropFinding 7 1000 50 ⟨1, 400⟩] ∧
    (significantDropFinding 7 1000 50 ⟨1, 400⟩).deviationPercent = some 60 ∧
    (significantDropFinding 7 1000 50 ⟨1, 400⟩).severity = .WARNING ∧
    (significantDropFinding 7 1000 50 ⟨1, 400⟩).expectedValue = some 1000 ∧
    (significantDropFinding 7 1000 50 ⟨1, 400⟩).actualValue = some 400 := by
  refine ⟨fun records solarUnitId f =>
    mem_detectSignificantDrop_iff records solarUnitId 50 f, ?_, ?_, ?_, rfl, rfl, rfl⟩
  · norm_num [windowAverage, windowSum, dropScenarioRecords, List.foldl]
  · norm_num [detectSignificantDrop, dropScenarioRecords, windowAverage, windowSum,
      significantDropFinding, List.filterMap, List.foldl]
  · norm_num [significantDropFinding]

/-- C7: the GRADUAL_DEGRADATION detector (threshold 15) produces its single
finding exactly when the window has at least 7 days, the least-squares slope
is negative, and `|slope * (n-1)| / mean * 100` STRICTLY exceeds 15 — a
window whose implied decline is exactly 15% of the mean is not flagged;
windows shorter than 7 days produce nothing. -/
theorem gradual_degradation_correct :
    (∀ (records : List DailyRecord) (solarUnitId : Nat),
      detectGradualDegradation records solarUnitId 15 =
        if 7 ≤ records.length ∧ regressionSlope records < 0 ∧
            declinePercentOf records > 15 then
          [gradualDegradationFinding solarUnitId records 15]
        else []) ∧
    regressionSlope gradBoundaryRecords = -1 ∧
    declinePercentOf gradBoundaryRecords = 15 ∧
    detectGradualDegradation gradBoundaryRecords 7 15 = [] ∧
    regressionSlope gradFiringRecords = -2 ∧
    declinePercentOf gradFiringRecords > 15 ∧
    detectGradualDegradation gradFiringRecords 7 15 =
      [gradualDegradationFinding 7 gradFiringRecords 15] := by
  have hs1 : regressionSlope gradBoundaryRecords = -1 := by
    norm_num [regressionSlope, indexWeightedSum, indexSum, indexSquareSum, windowSum,
      gradBoundaryRecords, List.enum, List.enumFrom, List.foldl]
  have ha1 : windowAverage gradBoundaryRecords = 40 := by
    norm_num [windowAverage, windowSum, gradBoundaryRecords, List.foldl]
  have hl1 : (gradBoundaryRecords.length : Rat) = 7 := by
    norm_num [gradBoundaryRecords]
  have hd1 : declinePercentOf gradBoundaryRecords = 15 := by
    unfold declinePercentOf
    rw [hs1, ha1, hl1]
    rw [show ((-1 : Rat) * ((7 : Rat) - 1)) = -6 by norm_num]
    rw [abs_neg]
    norm_num
  have hs2 : regressionSlope gradFiringRecords = -2 := by
    norm_num [regressionSlope, indexWeightedSum, indexSum, indexSquareSum, windowSum,
      gradFiringRecords, List.enum, List.enumFrom, List.foldl]
  have ha2 : windowAverage gradFiringRecords = 37 := by
    norm_num [windowAverage, windowSum, gradFiringRecords, List.foldl]
  have hl2 : (gradFiringRecords.length : Rat) = 7 := by
    norm_num [gradFiringRecords]
  have hd2 : declinePercentOf gradFiringRecords = 1200 / 37 := by
    unfold declinePercentOf
    rw [hs2, ha2, hl2]
    rw [show ((-2 : Rat) * ((7 : Rat) - 1)) = -12 by norm_num]
    rw [abs_neg]
    norm_num
  refine ⟨fun records solarUnitId =>
    detectGradualDegradation_eq records solarUnitId 15, hs1, hd1, ?_, hs2, ?_, ?_⟩
  · rw [detectGradualDegradation_eq, if_neg]
    rw [hd1]
    norm_num
  · rw [hd2]
    norm_num
  · rw [detectGradualDegradation_eq, if_pos]
    refine ⟨by norm_num [gradFiringRecords], ?_, ?_⟩
    · rw [hs2]; norm_num
    · rw [hd2]; norm_num

/-- C4 counterexample: a firing GRADUAL_DEGRADATION finding carries
`estimatedEnergyLoss` (here `|(-2)·6| · 7 / 2 = 42`), contradicting the
claim that the field is absent for this type. -/
theorem gradual_degradation_energy_loss_present :
    (detectGradualDegradation gradFiringRecords 5 15).map
        (fun f => (f.anomalyType, f.estimatedEnergyLoss)) =
      [(.GRADUAL_DEGRADATION, some 42)] := by
  have hs2 : regressionSlope gradFiringRecords = -2 := by
    norm_num [regressionSlope, indexWeightedSum, indexSum, indexSquareSum, windowSum,
      gradFiringRecords, List.enum, List.enumFrom, List.foldl]
  have ha2 : windowAverage gradFiringRecords = 37 := by
    norm_num [windowAverage, windowSum, gradFiringRecords, List.foldl]
  have hl2 : (gradFiringRecords.length : Rat) = 7 := by
    norm_num [gradFiringRecords]
  have hd2 : declinePercentOf gradFiringRecords = 1200 / 37 := by
    unfold declinePercentOf
    rw [hs2, ha2, hl2]
    rw [show ((-2 : Rat) * ((7 : Rat) - 1)) = -12 by norm_num]
    rw [abs_neg]
    norm_num
  rw [detectGradualDegradation_eq, if_pos]
  · rw [List.map_singleton]
    refine congrArg (fun x => [(AnomalyType.GRADUAL_DEGRADATION, x)]) ?_
    show (gradualDegradationFinding 5 gradFiringRecords 15).estimatedEnergyLoss = some 42
    unfold gradualDegradationFinding
    dsimp only
    rw [hs2, hl2]
    rw [show ((-2 : Rat) * ((7 : Rat) - 1)) = -12 by norm_num]
    rw [abs_neg]
    norm_num
  · refine ⟨by norm_num [gradFiringRecords], ?_, ?_⟩
    · rw [hs2]; norm_num
    · rw [hd2]; norm_num

/-- On the two-day witness series at capacity 5000 only the zero-production
detector fires, yielding a single finding. -/
theorem detectAll_witnessRecords :
    detectAll witnessRecords 7 5000 = [zeroProductionFinding 7 5000 ⟨1, 20⟩] := by
  norm_num [detectAll, witnessRecords, detectZeroProduction, detectSignificantDrop,
    detectGradualDegradation, detectSensorSpike, detectIntermittentFailure,
    detectBelowThreshold, List.filterMap]

/-- C4 (amended): a finding of the detector set carries
`estimatedEnergyLoss` exactly when its type is ZERO_PRODUCTION,
SIGNIFICANT_DROP, INTERMITTENT_FAILURE or GRADUAL_DEGRADATION (the
degradation detector stores a rough loss estimate too); the field is absent
exactly for SENSOR_SPIKE and BELOW_THRESHOLD findings. -/
theorem energy_loss_presence (records : List DailyRecord) (solarUnitId : Nat)
    (capacity : Rat) (f : Finding) (h : f ∈ detectAll records solarUnitId capacity) :
    f.estimatedEnergyLoss = none ↔
      (f.anomalyType = .SENSOR_SPIKE ∨ f.anomalyType = .BELOW_THRESHOLD) :=
  detectAll_energyLoss h

/-- C4 witness: the amended statement instantiated on the witness series'
zero-production finding. -/
theorem energy_loss_presence_witness :
    (zeroProductionFinding 7 5000 ⟨1, 20⟩).estimatedEnergyLoss = none ↔
      ((zeroProductionFinding 7 5000 ⟨1, 20⟩).anomalyType = .SENSOR_SPIKE ∨
        (zeroProductionFinding 7 5000 ⟨1, 20⟩).anomalyType = .BELOW_THRESHOLD) :=
  energy_loss_presence witnessRecords 7 5000 _
    (by rw [detectAll_witnessRecords]; exact List.mem_singleton_self _)

/-- C9: severity is the fixed function of the anomaly type — every finding
the detector set produces satisfies `severity = severityOf anomalyType`
(ZERO_PRODUCTION ↦ CRITICAL; SIGNIFICANT_DROP, GRADUAL_DEGRADATION,
INTERMITTENT_FAILURE ↦ WARNING; SENSOR_SPIKE, BELOW_THRESHOLD ↦ INFO), and
every record the detection job adds to the store satisfies it as well. -/
theorem severity_determinism :
    (∀ (records : List DailyRecord) (solarUnitId : Nat) (capacity : Rat)
        (f : Finding), f ∈ detectAll records solarUnitId capacity →
      f.severity = severityOf f.anomalyType) ∧
    (∀ (units : List JobUnit) (store : List StoredAnomaly)
        (a : StoredAnomaly), a ∈ (runAnomalyDetectionJob units store).2 →
      a ∈ store ∨ a.finding.severity = severityOf a.finding.anomalyType) := by
  constructor
  · intro records solarUnitId capacity f h
    exact detectAll_severity h
  · intro units store a h
    rcases mem_runJobAux_src units store a h with h' | ⟨u, -, fs, hfs, f, hf, rfl⟩
    · exact Or.inl h'
    · rcases analyzeUnit_ok hfs with rfl | ⟨records, -, rfl⟩
      · cases hf
      · exact Or.inr (detectAll_severity hf)

/-- C9 witness: the severity mapping checked on the witness series' finding,
via the main theorem. -/
theorem severity_determinism_witness :
    (zeroProductionFinding 7 5000 ⟨1, 20⟩).severity =
      severityOf (zeroProductionFinding 7 5000 ⟨1, 20⟩).anomalyType :=
  severity_determinism.1 witnessRecords 7 5000 _
    (by rw [detectAll_witnessRecords]; exact List.mem_singleton_self _)

/-- C2: the persister discards a finding without touching the store when a
dedup match on `(solarUnitId, anomalyType, startDate, endDate)` exists, and
otherwise appends it as a new OPEN record; consequently running the
detection job a second time over unchanged inputs reports
`newAnomalies = 0` and leaves the stored anomaly set identical. -/
theorem anomaly_job_idempotent :
    (∀ (store : List StoredAnomaly) (f : Finding), existsMatch store f = true →
      persistFindings store [f] = (store, 0)) ∧
    (∀ (store : List StoredAnomaly) (f : Finding), existsMatch store f = false →
      persistFindings store [f] = (store ++ [{ finding := f, status := .OPEN }], 1)) ∧
    (∀ (units : List JobUnit) (store : List StoredAnomaly),
      (runAnomalyDetectionJob units
          (runAnomalyDetectionJob units store).2).1.newAnomalies = 0 ∧
      (runAnomalyDetectionJob units (runAnomalyDetectionJob units store).2).2 =
        (runAnomalyDetectionJob units store).2) := by
  refine ⟨?_, ?_, ?_⟩
  · intro store f h
    simp [persistFindings, h]
  · intro store f h
    simp [persistFindings, h]
  · intro units store
    have hnoop := runJobAux_noop units (runJobAux units store).1
      fun u hu fs hfs f hf => runJobAux_covers units store u hu fs hfs f hf
    exact ⟨hnoop.2, hnoop.1⟩

/-- C2 witness: a duplicate finding is discarded, a fresh one is inserted as
OPEN, and a one-unit job reports zero new anomalies on its second run. -/
theorem anomaly_job_idempotent_witness :
    persistFindings [⟨zeroProductionFinding 1 100 ⟨0, 0⟩, .OPEN⟩]
        [zeroProductionFinding 1 100 ⟨0, 0⟩] =
      ([⟨zeroProductionFinding 1 100 ⟨0, 0⟩, .OPEN⟩], 0) ∧
    persistFindings [] [zeroProductionFinding 1 100 ⟨0, 0⟩] =
      ([⟨zeroProductionFinding 1 100 ⟨0, 0⟩, .OPEN⟩], 1) ∧
    (runAnomalyDetectionJob [⟨7, 5000, .ok witnessRecords⟩]
        (runAnomalyDetectionJob [⟨7, 5000, .ok witnessRecords⟩] []).2).1.newAnomalies = 0 :=
  ⟨anomaly_job_idempotent.1 _ _ (by simp [existsMatch, matchesDedupKey_self]),
   anomaly_job_idempotent.2.1 _ _ (by simp [existsMatch]),
   (anomaly_job_idempotent.2.2 [⟨7, 5000, .ok witnessRecords⟩] []).1⟩

/-- C8: the job always reports `processed` equal to the number of active
units, and a unit whose analysis throws is skipped — it contributes no
findings and no inserts, and the rest of the run is exactly the run without
it (still counting the failing unit in `processed`). -/
theorem job_isolates_failures :
    (∀ (units : List JobUnit) (store : List StoredAnomaly),
      (runAnomalyDetectionJob units store).1.processed = units.length) ∧
    (∀ (us1 us2 : List JobUnit) (u : JobUnit) (e : String)
        (store : List StoredAnomaly), analyzeUnit u = .error e →
      runAnomalyDetectionJob (us1 ++ u :: us2) store =
        ({ processed := us1.length + us2.length + 1
           anomaliesFound := (runAnomalyDetectionJob (us1 ++ us2) store).1.anomaliesFound
           newAnomalies := (runAnomalyDetectionJob (us1 ++ us2) store).1.newAnomalies },
         (runAnomalyDetectionJob (us1 ++ us2) store).2)) := by
  constructor
  · intro units store
    rfl
  · intro us1 us2 u e store h
    have hskip := runJobAux_skip_error h us1 us2 store
    unfold runAnomalyDetectionJob
    rw [hskip]
    have hlen : (us1 ++ u :: us2).length = us1.length + us2.length + 1 := by
      rw [List.length_append, List.length_cons]
      omega
    rw [hlen]

/-- C8 witness: a single failing unit is counted as processed while
contributing nothing, via the main theorem. -/
theorem job_isolates_failures_witness :
    analyzeUnit failingUnit = .error "storage read failed" ∧
    runAnomalyDetectionJob [failingUnit] [] =
      ({ processed := 1
         anomaliesFound := (runAnomalyDetectionJob [] []).1.anomaliesFound
         newAnomalies := (runAnomalyDetectionJob [] []).1.newAnomalies },
       (runAnomalyDetectionJob [] []).2) :=
  ⟨rfl, job_isolates_failures.2 [] [] failingUnit "storage read failed" [] rfl⟩

/-- C10 witness: the pipeline instantiated at capacity 100, unit 3. -/
theorem empty_series_no_findings_witness :
    detectAnomaliesForSolarUnit (some 100) (.ok []) 3 = .ok [] :=
  empty_series_no_findings.1 100 3

/-- C5 witness: the membership characterization applied to the witness
series' qualifying day. -/
theorem zero_production_correct_witness :
    zeroProductionFinding 7 5000 ⟨1, 20⟩ ∈ detectZeroProduction witnessRecords 7 5000 :=
  (zero_production_correct.1 witnessRecords 7 5000
      (zeroProductionFinding 7 5000 ⟨1, 20⟩)).mpr
    ⟨⟨1, 20⟩, by simp [witnessRecords], by norm_num, rfl⟩

/-- C6 witness: the membership characterization applied to the scenario's
60%-below-mean day. -/
theorem significant_drop_correct_witness :
    significantDropFinding 7 (windowAverage dropScenarioRecords) 50 ⟨1, 400⟩ ∈
      detectSignificantDrop dropScenarioRecords 7 50 :=
  (significant_drop_correct.1 dropScenarioRecords 7
      (significantDropFinding 7 (windowAverage dropScenarioRecords) 50 ⟨1, 400⟩)).mpr
    ⟨by norm_num [dropScenarioRecords], ⟨1, 400⟩, by simp [dropScenarioRecords],
      by norm_num,
      by norm_num [windowAverage, windowSum, dropScenarioRecords, List.foldl], rfl⟩

/-- C7 witness: the equation characterization instantiated on the witness
series. -/
theorem gradual_degradation_correct_witness :
    detectGradualDegradation witnessRecords 9 15 =
      if 7 ≤ witnessRecords.length ∧ regressionSlope witnessRecords < 0 ∧
          declinePercentOf witnessRecords > 15 then
        [gradualDegradationFinding 9 witnessRecords 15]
      else [] :=
  gradual_degradation_correct.1 witnessRecords 9

/-- C3 witness: the amended trigger instantiated on the counterexample
window. -/
theorem below_threshold_trigger_correct_witness :
    detectBelowThreshold belowCexRecords 7 100 20 =
      if 3 ≤ belowCexRecords.length ∧ halfRoundedUp belowCexRecords.length ≤
          belowThresholdDayCount belowCexRecords 100 20 then
        [belowThresholdFinding 7 belowCexRecords 100 20]
      else [] :=
  below_threshold_trigger_correct belowCexRecords 7 100
